import Mathlib

/-!
Verification of the hybrid kqueue+fsevents composite watcher
(`src/watcher/kqueue_and_fsevents.cpp`) against its specification.

The C++ code is shallowly embedded: each class becomes a Lean structure
holding its fields, each member function becomes a pure Lean function from
the old state (plus the inputs the code reads) to its result and the new
state.  External collaborators (the kqueue / fsevents leaf watchers, the
root's cookie registry, the client connection) are modelled by explicit
parameters and by event logs appended to the state, so that theorems can
speak about which calls the code made and how often.
-/

namespace Watchman

/-- Bit-set of pending-event flags.  The source ORs the three constants
`W_PENDING_VIA_NOTIFY | W_PENDING_RECURSIVE | W_PENDING_IS_DESYNCED`
when emitting the injected recrawl event; the set of flags is modelled as
one boolean per flag. -/
structure PendingFlags where
  via_notify : Bool
  is_recursive : Bool
  is_desynced : Bool
deriving DecidableEq, Repr

/-- The flag set `W_PENDING_VIA_NOTIFY | W_PENDING_RECURSIVE | W_PENDING_IS_DESYNCED`
used at `kqueue_and_fsevents.cpp:212`. -/
def syntheticRecrawlFlags : PendingFlags :=
  { via_notify := true, is_recursive := true, is_desynced := true }

/-- One entry added to the external `PendingCollection` sink by
`coll->add(path, now, flags)`. -/
structure PendingEvent where
  path : String
  time : Nat
  flags : PendingFlags
deriving DecidableEq, Repr

/-- Which waiters a gate operation wakes: `notify_one` wakes one,
`notify_all` wakes all, and an operation that does not touch the
condition variable wakes nobody. -/
inductive Wake where
  | nobody
  | one
  | all
deriving DecidableEq, Repr

namespace PendingEventsCond

/-- `PendingEventsCond::Inner` (`kqueue_and_fsevents.cpp:62-65`): the
state guarded by the gate's mutex. -/
structure Inner where
  shouldStop : Bool
  hasPending : Bool
deriving DecidableEq, Repr

/-- Both flags default-initialized to false (`bool shouldStop{}; bool hasPending{};`). -/
def Inner.init : Inner := { shouldStop := false, hasPending := false }

/-- `PendingEventsCond::notifyOneOrStop` (`kqueue_and_fsevents.cpp:22-30`):
under the lock, if `shouldStop` return true; otherwise set `hasPending`,
`cond_.notify_one()`, return false.  Result: (return value, new state,
which waiters were woken). -/
def notifyOneOrStop (s : Inner) : Bool × Inner × Wake :=
  if s.shouldStop then
    (true, s, Wake.nobody)
  else
    (false, { s with hasPending := true }, Wake.one)

/-- `PendingEventsCond::shouldStop` (`kqueue_and_fsevents.cpp:35-37`):
non-blocking read of the stop flag. -/
def readShouldStop (s : Inner) : Bool :=
  s.shouldStop

/-- `PendingEventsCond::wait` (`kqueue_and_fsevents.cpp:43-50`): under the
lock, if `shouldStop` return false immediately; otherwise block on
`cond_.wait_for` (up to `timeoutms`) and return `hasPending`.  The state
is only read, never written: the function returns a Bool and no new
state.  The timeout only bounds the (unmodelled) blocking. -/
def wait (s : Inner) (timeoutms : Nat) : Bool :=
  if s.shouldStop then false else s.hasPending

/-- `PendingEventsCond::stopAll` (`kqueue_and_fsevents.cpp:55-59`): under
the lock, set `shouldStop` and `cond_.notify_all()`. -/
def stopAll (s : Inner) : Inner × Wake :=
  ({ s with shouldStop := true }, Wake.all)

/-- The public operations of the gate, for stating properties of every
operation sequence. -/
inductive GateOp where
  | notify
  | waitOp (timeoutms : Nat)
  | readStop
  | stop
deriving DecidableEq, Repr

/-- The state component of each gate operation (`wait` and the stop-flag
read never write the state). -/
def applyGateOp (s : Inner) (op : GateOp) : Inner :=
  match op with
  | GateOp.notify => (notifyOneOrStop s).2.1
  | GateOp.waitOp _ => s
  | GateOp.readStop => s
  | GateOp.stop => (stopAll s).1

end PendingEventsCond

end Watchman

open Watchman
open Watchman.PendingEventsCond

/-- Claim C7: if stop has already been requested, `notifyPendingOrStop`
returns true with no side effect (state unchanged, nobody woken);
otherwise it sets the pending flag (leaving the stop flag alone), wakes
exactly one waiter, and returns false. -/
theorem c7_notifyOneOrStop_spec (s : Inner) :
    (notifyOneOrStop s).1 = s.shouldStop
    ∧ (s.shouldStop = true →
        notifyOneOrStop s = (true, s, Wake.nobody))
    ∧ (s.shouldStop = false →
        notifyOneOrStop s =
          (false, { shouldStop := s.shouldStop, hasPending := true }, Wake.one)) := by
  unfold notifyOneOrStop
  cases h : s.shouldStop <;> simp

/-- Witness for C7 at concrete gates: a stopped gate returns true and is
untouched; a running gate returns false, sets pending, and wakes one. -/
theorem c7_notifyOneOrStop_spec_witness :
    notifyOneOrStop { shouldStop := true, hasPending := false } =
      (true, { shouldStop := true, hasPending := false }, Wake.nobody)
    ∧ notifyOneOrStop { shouldStop := false, hasPending := false } =
      (false, { shouldStop := false, hasPending := true }, Wake.one) :=
  ⟨(c7_notifyOneOrStop_spec { shouldStop := true, hasPending := false }).2.1 rfl,
   (c7_notifyOneOrStop_spec { shouldStop := false, hasPending := false }).2.2 rfl⟩

/-- Claim C8: once the stop flag is true, no sequence of gate operations
ever makes it false again; `stopAll` is idempotent (a second call leaves
the very same state and again wakes all waiters, with no error), and
every `stopAll` wakes every waiter. -/
theorem c8_stop_is_permanent_and_stopAll_idempotent
    (s : Inner) (ops : List GateOp) (hstop : s.shouldStop = true) :
    (ops.foldl applyGateOp s).shouldStop = true
    ∧ stopAll (stopAll s).1 = stopAll s
    ∧ (stopAll s).2 = Wake.all := by
  refine ⟨?_, ?_, rfl⟩
  · induction ops generalizing s with
    | nil => exact hstop
    | cons op rest ih =>
      apply ih
      cases op with
      | notify =>
        simp only [applyGateOp, notifyOneOrStop, hstop]
        simpa using hstop
      | waitOp t => exact hstop
      | readStop => exact hstop
      | stop => rfl
  · unfold stopAll
    simp

/-- Witness for C8 at a concrete stopped gate and operation sequence. -/
theorem c8_stop_is_permanent_and_stopAll_idempotent_witness :
    (([GateOp.notify, GateOp.waitOp 5, GateOp.stop, GateOp.notify].foldl applyGateOp
        { shouldStop := true, hasPending := false }).shouldStop = true)
    ∧ stopAll (stopAll { shouldStop := true, hasPending := false }).1 =
        stopAll { shouldStop := true, hasPending := false }
    ∧ (stopAll { shouldStop := true, hasPending := false }).2 = Wake.all :=
  c8_stop_is_permanent_and_stopAll_idempotent
    { shouldStop := true, hasPending := false }
    [GateOp.notify, GateOp.waitOp 5, GateOp.stop, GateOp.notify] rfl

namespace Watchman

/-- The observable behaviour of one leaf watcher (an `FSEventsWatcher` in
the pool, or the `KQueueWatcher`) during a single `consumeNotify` call on
it: the events it adds to the shared pending collection and the
`ConsumeNotifyRet` pair it returns.  The leaf watchers live outside this
translation unit, so the composite's drain is parametrised by them. -/
structure LeafBehavior where
  events : List PendingEvent
  addedPending : Bool
  cancelSelf : Bool
deriving DecidableEq, Repr

/-- A leaf watcher with nothing to report: no events, `addedPending`
false, no self-cancellation. -/
def quiescent : LeafBehavior :=
  { events := [], addedPending := false, cancelSelf := false }

/-- `Watcher::ConsumeNotifyRet`: the pair returned by `consumeNotify`. -/
structure ConsumeNotifyRet where
  addedPending : Bool
  cancelSelf : Bool
deriving DecidableEq, Repr

/-- The state of one `KQueueAndFSEventsWatcher` together with logs of the
calls it made on its external collaborators.

* `fseventWatchers` — the keys of the `fseventWatchers_` map (the pool of
  per-top-level-directory `FSEventsWatcher` instances), in insertion
  order.
* `injectedRecrawl` — the `injectedRecrawl_` slot.
* `cond` — the `pendingCondition_` gate state.
* `cookieAdds` / `cookieRemovals` — log of `root->cookies.addCookieDir` /
  `removeCookieDir` calls, one entry per call.
* `stopsSignalled` — log of `signalThreads()` calls made on pool
  watchers (the pool watcher's request-stop).
* `constructedWatchers` — log of `FSEventsWatcher` constructions.
* `startedThreads` — number of monitor threads spawned via `startThread`. -/
structure WatcherState where
  fseventWatchers : List String
  injectedRecrawl : Option String
  cond : PendingEventsCond.Inner
  cookieAdds : List String
  cookieRemovals : List String
  stopsSignalled : List String
  constructedWatchers : List String
  startedThreads : Nat
deriving DecidableEq, Repr

/-- State right after the `KQueueAndFSEventsWatcher` constructor
(`kqueue_and_fsevents.cpp:114-119`): empty pool, empty injected-recrawl
slot, fresh gate. -/
def WatcherState.init : WatcherState :=
  { fseventWatchers := [], injectedRecrawl := none,
    cond := PendingEventsCond.Inner.init,
    cookieAdds := [], cookieRemovals := [], stopsSignalled := [],
    constructedWatchers := [], startedThreads := 0 }

/-- `KQueueAndFSEventsWatcher::injectRecrawl` (`kqueue_and_fsevents.cpp:250-253`):
overwrite the `injectedRecrawl_` slot with the path, then call
`notifyOneOrStop` on the gate, ignoring its return value. -/
def injectRecrawl (st : WatcherState) (path : String) : WatcherState :=
  { st with
    injectedRecrawl := some path,
    cond := (PendingEventsCond.notifyOneOrStop st.cond).2.1 }

/-- First block of `consumeNotify` (`kqueue_and_fsevents.cpp:201-216`):
if the `injectedRecrawl_` slot holds a path, add one event for it with
flags `W_PENDING_VIA_NOTIFY | W_PENDING_RECURSIVE | W_PENDING_IS_DESYNCED`
at the current time and reset the slot.  Note the surrounding `ret`
accumulator is not touched by this block.  Returns (events added, new
slot value). -/
def drainInjected (inj : Option String) (now : Nat) :
    List PendingEvent × Option String :=
  match inj with
  | some p => ([{ path := p, time := now, flags := syntheticRecrawlFlags }], none)
  | none => ([], none)

/-- Result of the pool loop of `consumeNotify`. -/
structure PoolDrain where
  events : List PendingEvent
  added : Bool
  pool : List String
  stops : List String
  removals : List String
deriving DecidableEq, Repr

/-- Second block of `consumeNotify` (`kqueue_and_fsevents.cpp:217-229`):
iterate over the pool; call each watcher's `consumeNotify` (its events go
to the collection in any case); if it reports `cancelSelf`, call its
`signalThreads`, remove its cookie dir, erase it from the pool and do not
accumulate its `addedPending`; otherwise keep it and OR `addedPending`
into the accumulator. -/
def drainPool (env : String → LeafBehavior) : List String → PoolDrain
  | [] => { events := [], added := false, pool := [], stops := [], removals := [] }
  | p :: rest =>
    let b := env p
    let r := drainPool env rest
    if b.cancelSelf then
      { events := b.events ++ r.events, added := r.added,
        pool := r.pool, stops := p :: r.stops, removals := p :: r.removals }
    else
      { events := b.events ++ r.events, added := b.addedPending || r.added,
        pool := p :: r.pool, stops := r.stops, removals := r.removals }

/-- Everything a `consumeNotify` call produces: the returned
`ConsumeNotifyRet`, the events added to the shared pending collection (in
the order they were added), and the new composite state. -/
structure DrainOut where
  ret : ConsumeNotifyRet
  sink : List PendingEvent
  state : WatcherState
deriving DecidableEq, Repr

/-- `KQueueAndFSEventsWatcher::consumeNotify` (`kqueue_and_fsevents.cpp:197-233`):
`ret` starts false; drain the injected-recrawl slot (adds its event
without touching `ret`); loop over the pool; finally call the kqueue
watcher's `consumeNotify`, OR its `addedPending` into `ret`, and return
`{ret, cancelSelf}` where `cancelSelf` is the kqueue watcher's alone.
`env` gives each pool watcher's behaviour for this call, `kq` the kqueue
watcher's, `now` the current time. -/
def consumeNotify (st : WatcherState) (env : String → LeafBehavior)
    (kq : LeafBehavior) (now : Nat) : DrainOut :=
  let inj := drainInjected st.injectedRecrawl now
  let r := drainPool env st.fseventWatchers
  { ret := { addedPending := r.added || kq.addedPending, cancelSelf := kq.cancelSelf },
    sink := inj.1 ++ r.events ++ kq.events,
    state := { st with
      injectedRecrawl := inj.2,
      fseventWatchers := r.pool,
      stopsSignalled := st.stopsSignalled ++ r.stops,
      cookieRemovals := st.cookieRemovals ++ r.removals } }

/-- `KQueueAndFSEventsWatcher::waitNotify` (`kqueue_and_fsevents.cpp:235-237`):
delegate to the gate's `wait`. -/
def waitNotify (st : WatcherState) (timeoutms : Nat) : Bool :=
  PendingEventsCond.wait st.cond timeoutms

/-- `KQueueAndFSEventsWatcher::start` (`kqueue_and_fsevents.cpp:147-151`):
add the root path as a cookie dir, then `startThread` for the kqueue
watcher.  `startThread` (`kqueue_and_fsevents.cpp:122-144`) spawns a
detached monitor thread and unconditionally returns true, and `start`
returns its value. -/
def start (st : WatcherState) (rootPath : String) : Bool × WatcherState :=
  (true,
   { st with
     cookieAdds := st.cookieAdds ++ [rootPath],
     startedThreads := st.startedThreads + 1 })

end Watchman

@[simp]
theorem quiescent_events : quiescent.events = [] := rfl

@[simp]
theorem quiescent_addedPending : quiescent.addedPending = false := rfl

@[simp]
theorem quiescent_cancelSelf : quiescent.cancelSelf = false := rfl

/-- Draining a pool of quiescent leaf watchers adds no events, reports no
pending, keeps every entry, and signals or removes nothing. -/
theorem drainPool_quiescent (pool : List String) :
    drainPool (fun _ => quiescent) pool =
      { events := [], added := false, pool := pool, stops := [], removals := [] } := by
  induction pool with
  | nil => rfl
  | cons p rest ih => simp [drainPool, ih]

/-- `injectRecrawl` never touches the watcher pool, so neither does any
sequence of `injectRecrawl` calls. -/
theorem foldl_injectRecrawl_fseventWatchers (st : WatcherState) (ps : List String) :
    (ps.foldl injectRecrawl st).fseventWatchers = st.fseventWatchers := by
  induction ps generalizing st with
  | nil => rfl
  | cons p rest ih => simpa using ih (injectRecrawl st p)

/-- Claim C10: the composite's `start` never reports failure — it adds
the root's cookie (consistency-barrier marker) directory, spawns the
kqueue watcher's monitor thread, and returns true unconditionally, for
every state and root path. -/
theorem c10_start_never_fails (st : WatcherState) (rootPath : String) :
    (Watchman.start st rootPath).1 = true
    ∧ (Watchman.start st rootPath).2.cookieAdds = st.cookieAdds ++ [rootPath]
    ∧ (Watchman.start st rootPath).2.startedThreads = st.startedThreads + 1 :=
  ⟨rfl, rfl, rfl⟩

/-- Counterexample to claim C1 as stated: inject a recrawl for "R/b"
into a fresh composite and drain with every leaf watcher quiescent; the
drain does return the synthetic event, but `anyAdded` is false, not true
— the injected-recrawl block of `consumeNotify` never sets the `ret`
accumulator. -/
theorem c1_counterexample :
    ¬ ((consumeNotify (injectRecrawl WatcherState.init "R/b")
          (fun _ => quiescent) quiescent 0).ret.addedPending = true) := by
  decide

/-- Claim C1 (amended): after `injectRecrawl p`, a drain in which no
other watcher has pending events and none self-cancels emits the one
synthetic event for `p` but returns `(anyAdded := false, selfCancel :=
false)` — the synthetic recrawl event does not count toward `anyAdded` —
and a second drain with nothing new returns `(false, false)` and emits
nothing. -/
theorem c1_amended_inject_then_drain
    (st : WatcherState) (p : String) (now1 now2 : Nat) :
    (consumeNotify (injectRecrawl st p) (fun _ => quiescent) quiescent now1).ret =
      { addedPending := false, cancelSelf := false }
    ∧ (consumeNotify (injectRecrawl st p) (fun _ => quiescent) quiescent now1).sink =
      [{ path := p, time := now1, flags := syntheticRecrawlFlags }]
    ∧ (consumeNotify
        (consumeNotify (injectRecrawl st p) (fun _ => quiescent) quiescent now1).state
        (fun _ => quiescent) quiescent now2).ret =
      { addedPending := false, cancelSelf := false }
    ∧ (consumeNotify
        (consumeNotify (injectRecrawl st p) (fun _ => quiescent) quiescent now1).state
        (fun _ => quiescent) quiescent now2).sink = [] := by
  refine ⟨?_, ?_, ?_, ?_⟩ <;>
    simp [consumeNotify, injectRecrawl, drainInjected, drainPool_quiescent]

/-- Claim C3: whatever the sequence of `injectRecrawl` calls (here `ps`
followed by a last call for `p`), one drain adds exactly one synthetic
event — for the most recently injected path, with exactly the flags
via-notification, recursive and desynced — ahead of whatever the leaf
watchers themselves contribute; the slot is empty afterwards, and a
subsequent drain with no new injection contributes no synthetic event. -/
theorem c3_single_synthetic_event_last_write_wins
    (st : WatcherState) (ps : List String) (p : String)
    (env env2 : String → LeafBehavior) (kq kq2 : LeafBehavior) (now1 now2 : Nat) :
    (consumeNotify ((ps ++ [p]).foldl injectRecrawl st) env kq now1).sink =
      { path := p, time := now1, flags := syntheticRecrawlFlags } ::
        ((drainPool env st.fseventWatchers).events ++ kq.events)
    ∧ (consumeNotify ((ps ++ [p]).foldl injectRecrawl st) env kq now1).state.injectedRecrawl
        = none
    ∧ (consumeNotify
        (consumeNotify ((ps ++ [p]).foldl injectRecrawl st) env kq now1).state
        env2 kq2 now2).sink =
      (drainPool env2
        (consumeNotify ((ps ++ [p]).foldl injectRecrawl st) env kq now1).state.fseventWatchers).events
        ++ kq2.events := by
  have hfold : (ps ++ [p]).foldl injectRecrawl st
      = injectRecrawl (ps.foldl injectRecrawl st) p := by
    simp [List.foldl_append]
  refine ⟨?_, ?_, ?_⟩ <;>
    simp [hfold, consumeNotify, injectRecrawl, drainInjected,
      foldl_injectRecrawl_fseventWatchers]

/-- Entries surviving the pool loop were in the pool before it. -/
theorem drainPool_mem_pool (env : String → LeafBehavior) :
    ∀ {pool : List String} {q : String},
      q ∈ (drainPool env pool).pool → q ∈ pool := by
  intro pool
  induction pool with
  | nil => intro q h; cases h
  | cons p rest ih =>
    intro q h
    by_cases hc : (env p).cancelSelf = true
    · simp only [drainPool, if_pos hc] at h
      exact List.mem_cons_of_mem _ (ih h)
    · simp only [drainPool, if_neg hc] at h
      rcases List.mem_cons.mp h with h | h
      · exact h ▸ List.mem_cons_self _ _
      · exact List.mem_cons_of_mem _ (ih h)

/-- Cookie-dir removals performed by the pool loop name pool entries. -/
theorem drainPool_mem_removals (env : String → LeafBehavior) :
    ∀ {pool : List String} {q : String},
      q ∈ (drainPool env pool).removals → q ∈ pool := by
  intro pool
  induction pool with
  | nil => intro q h; cases h
  | cons p rest ih =>
    intro q h
    by_cases hc : (env p).cancelSelf = true
    · simp only [drainPool, if_pos hc] at h
      rcases List.mem_cons.mp h with h | h
      · exact h ▸ List.mem_cons_self _ _
      · exact List.mem_cons_of_mem _ (ih h)
    · simp only [drainPool, if_neg hc] at h
      exact List.mem_cons_of_mem _ (ih h)

/-- Pool loop on a duplicate-free pool, for an entry whose watcher
self-cancels: the entry is gone from the surviving pool, its cookie dir
is removed exactly once, and its threads are signalled to stop. -/
theorem drainPool_cancel_spec (env : String → LeafBehavior) (pool : List String)
    (q : String) (hnd : pool.Nodup) (hq : q ∈ pool)
    (hc : (env q).cancelSelf = true) :
    q ∉ (drainPool env pool).pool
    ∧ (drainPool env pool).removals.count q = 1
    ∧ q ∈ (drainPool env pool).stops := by
  induction pool with
  | nil => cases hq
  | cons p rest ih =>
    have hnotp : p ∉ rest := (List.nodup_cons.mp hnd).1
    have hnd' : rest.Nodup := (List.nodup_cons.mp hnd).2
    rcases List.mem_cons.mp hq with rfl | hqr
    · have hnotin1 : q ∉ (drainPool env rest).pool :=
        fun h => hnotp (drainPool_mem_pool env h)
      have hnotin2 : q ∉ (drainPool env rest).removals :=
        fun h => hnotp (drainPool_mem_removals env h)
      refine ⟨?_, ?_, ?_⟩
      · simp only [drainPool, if_pos hc]
        exact hnotin1
      · simp only [drainPool, if_pos hc]
        simp [List.count_cons_self, List.count_eq_zero.mpr hnotin2]
      · simp only [drainPool, if_pos hc]
        exact List.mem_cons_self _ _
    · have hqp : q ≠ p := fun h => hnotp (h ▸ hqr)
      obtain ⟨h1, h2, h3⟩ := ih hnd' hqr
      by_cases hcp : (env p).cancelSelf = true
      · refine ⟨?_, ?_, ?_⟩
        · simp only [drainPool, if_pos hcp]; exact h1
        · simp only [drainPool, if_pos hcp]
          simp [List.count_cons_of_ne hqp, h2]
        · simp only [drainPool, if_pos hcp]
          exact List.mem_cons_of_mem _ h3
      · refine ⟨?_, ?_, ?_⟩
        · simp only [drainPool, if_neg hcp]
          intro h
          rcases List.mem_cons.mp h with h | h
          · exact hqp h
          · exact h1 h
        · simp only [drainPool, if_neg hcp]; exact h2
        · simp only [drainPool, if_neg hcp]; exact h3

/-- Claim C2: when a pool watcher's drain reports self-cancel during
`consumeNotify` (pool duplicate-free), the composite signals that
watcher's threads to stop, removes its consistency-barrier cookie dir
exactly once, and evicts it from the pool, so it is absent on the next
drain; and the composite's returned `cancelSelf` equals the kqueue (root
mechanism) watcher's alone, whatever the pool watchers reported. -/
theorem c2_subwatcher_self_cancel
    (st : WatcherState) (env : String → LeafBehavior) (kq : LeafBehavior)
    (now : Nat) (q : String) (hnd : st.fseventWatchers.Nodup)
    (hq : q ∈ st.fseventWatchers) (hc : (env q).cancelSelf = true) :
    q ∉ (consumeNotify st env kq now).state.fseventWatchers
    ∧ (consumeNotify st env kq now).state.cookieRemovals.count q
        = st.cookieRemovals.count q + 1
    ∧ q ∈ (consumeNotify st env kq now).state.stopsSignalled
    ∧ (consumeNotify st env kq now).ret.cancelSelf = kq.cancelSelf := by
  obtain ⟨h1, h2, h3⟩ := drainPool_cancel_spec env st.fseventWatchers q hnd hq hc
  refine ⟨?_, ?_, ?_, rfl⟩
  · simpa [consumeNotify] using h1
  · simp [consumeNotify, List.count_append, h2]
  · simp [consumeNotify, h3]

/-- Pool of two watchers where the one at "R/a" self-cancels. -/
def cancelEnvA : String → LeafBehavior := fun p =>
  if p = "R/a" then { events := [], addedPending := false, cancelSelf := true }
  else quiescent

/-- A fresh composite whose pool holds watchers for "R/a" and "R/b". -/
def stPoolAB : WatcherState :=
  { WatcherState.init with fseventWatchers := ["R/a", "R/b"] }

/-- Witness for C2: concrete two-entry pool in which the watcher for
"R/a" self-cancels while the kqueue watcher is quiescent. -/
theorem c2_subwatcher_self_cancel_witness :
    "R/a" ∉ (consumeNotify stPoolAB cancelEnvA quiescent 0).state.fseventWatchers
    ∧ (consumeNotify stPoolAB cancelEnvA quiescent 0).state.cookieRemovals.count "R/a"
        = stPoolAB.cookieRemovals.count "R/a" + 1
    ∧ "R/a" ∈ (consumeNotify stPoolAB cancelEnvA quiescent 0).state.stopsSignalled
    ∧ (consumeNotify stPoolAB cancelEnvA quiescent 0).ret.cancelSelf
        = quiescent.cancelSelf :=
  c2_subwatcher_self_cancel stPoolAB cancelEnvA quiescent 0 "R/a"
    (by decide) (by decide) (by decide)

namespace Watchman

/-- The part of `struct watchman_dir` that `startWatchDir` reads: the
directory's full path (`dir->getFullPath()`) and its parent's full path
(`dir->parent`, `dir->parent->getFullPath()`), `none` when `!dir->parent`
(the watched root itself). -/
structure Dir where
  fullPath : String
  parentPath : Option String
deriving DecidableEq, Repr

/-- `KQueueAndFSEventsWatcher::startWatchDir` (`kqueue_and_fsevents.cpp:153-184`),
effect on the composite's state.  No parent: the root itself, watched by
the kqueue watcher (external, no composite-state change).  Parent equal
to the watched root path: a top-level directory — under the pool's write
lock, if no entry exists for this path yet, add its cookie dir, construct
a new `FSEventsWatcher`, insert it into the pool, start it and spawn its
monitor thread.  Deeper directories: nothing to register.  The function
then returns `w_dir_open(path)` unconditionally. -/
def startWatchDir (st : WatcherState) (rootPath : String) (dir : Dir) : WatcherState :=
  match dir.parentPath with
  | none => st
  | some parentFullPath =>
    if parentFullPath = rootPath then
      if dir.fullPath ∈ st.fseventWatchers then st
      else
        { st with
          fseventWatchers := st.fseventWatchers ++ [dir.fullPath],
          cookieAdds := st.cookieAdds ++ [dir.fullPath],
          constructedWatchers := st.constructedWatchers ++ [dir.fullPath],
          startedThreads := st.startedThreads + 1 }
    else st

/-- A sequence of `startWatchDir` calls. -/
def startWatchDirs (st : WatcherState) (rootPath : String) (dirs : List Dir) : WatcherState :=
  dirs.foldl (fun s d => startWatchDir s rootPath d) st

end Watchman

/-- One `startWatchDir` call either leaves the pool alone, or appends the
directory's path, and then only for a fresh top-level directory. -/
theorem startWatchDir_pool_cases (st : WatcherState) (rootPath : String) (d : Dir) :
    (startWatchDir st rootPath d).fseventWatchers = st.fseventWatchers
    ∨ ((startWatchDir st rootPath d).fseventWatchers
          = st.fseventWatchers ++ [d.fullPath]
        ∧ d.parentPath = some rootPath
        ∧ d.fullPath ∉ st.fseventWatchers) := by
  cases hp : d.parentPath with
  | none => left; simp [startWatchDir, hp]
  | some pp =>
    by_cases hroot : pp = rootPath
    · by_cases hmem : d.fullPath ∈ st.fseventWatchers
      · left; simp [startWatchDir, hp, hroot, hmem]
      · right
        refine ⟨?_, by rw [hroot], hmem⟩
        simp [startWatchDir, hp, hroot, hmem]
    · left; simp [startWatchDir, hp, hroot]

/-- `startWatchDir` preserves freedom from duplicate pool entries. -/
theorem startWatchDir_nodup {st : WatcherState} (rootPath : String) (d : Dir)
    (h : st.fseventWatchers.Nodup) :
    (startWatchDir st rootPath d).fseventWatchers.Nodup := by
  rcases startWatchDir_pool_cases st rootPath d with hc | ⟨hc, _, hnot⟩
  · rw [hc]; exact h
  · rw [hc]
    simp [List.nodup_append, h, hnot]

/-- Every pool entry produced by a sequence of `startWatchDir` calls was
either there already or registered by a call for a directory whose
parent is the watched root. -/
theorem startWatchDirs_pool_from (rootPath : String) :
    ∀ (dirs : List Dir) (st : WatcherState) (q : String),
      q ∈ (startWatchDirs st rootPath dirs).fseventWatchers →
      q ∈ st.fseventWatchers
      ∨ ∃ e, e ∈ dirs ∧ e.fullPath = q ∧ e.parentPath = some rootPath := by
  intro dirs
  induction dirs with
  | nil => intro st q h; exact Or.inl h
  | cons d rest ih =>
    intro st q h
    have h' := ih (startWatchDir st rootPath d) q (by simpa [startWatchDirs] using h)
    rcases h' with h' | ⟨e, he, h1, h2⟩
    · rcases startWatchDir_pool_cases st rootPath d with hc | ⟨hc, hpar, _⟩
      · rw [hc] at h'; exact Or.inl h'
      · rw [hc] at h'
        rcases List.mem_append.mp h' with h'' | h''
        · exact Or.inl h''
        · exact Or.inr ⟨d, List.mem_cons_self _ _, (List.mem_singleton.mp h'').symm, hpar⟩
    · exact Or.inr ⟨e, List.mem_cons_of_mem _ he, h1, h2⟩

/-- A sequence of `startWatchDir` calls keeps the pool duplicate-free. -/
theorem startWatchDirs_nodup (rootPath : String) :
    ∀ (dirs : List Dir) (st : WatcherState),
      st.fseventWatchers.Nodup →
      (startWatchDirs st rootPath dirs).fseventWatchers.Nodup := by
  intro dirs
  induction dirs with
  | nil => intro st h; exact h
  | cons d rest ih =>
    intro st h
    simpa [startWatchDirs] using
      ih (startWatchDir st rootPath d) (startWatchDir_nodup rootPath d h)

/-- Registering a top-level directory whose pool entry already exists is
a no-op: no watcher is constructed, no thread started, nothing changes. -/
theorem startWatchDir_mem_id {st : WatcherState} {rootPath : String} {d : Dir}
    (hpar : d.parentPath = some rootPath)
    (hmem : d.fullPath ∈ st.fseventWatchers) :
    startWatchDir st rootPath d = st := by
  simp [startWatchDir, hpar, hmem]

/-- Registering the same already-present top-level directory any number
of times changes nothing. -/
theorem startWatchDirs_replicate_id (rootPath : String) (d : Dir) :
    ∀ (m : Nat) (st : WatcherState), d.parentPath = some rootPath →
      d.fullPath ∈ st.fseventWatchers →
      startWatchDirs st rootPath (List.replicate m d) = st := by
  intro m
  induction m with
  | zero => intro st _ _; rfl
  | succ k ih =>
    intro st hpar hmem
    have hid : startWatchDir st rootPath d = st := startWatchDir_mem_id hpar hmem
    calc startWatchDirs st rootPath (List.replicate (k + 1) d)
        = startWatchDirs (startWatchDir st rootPath d) rootPath (List.replicate k d) := by
          simp [startWatchDirs, List.replicate_succ]
      _ = startWatchDirs st rootPath (List.replicate k d) := by rw [hid]
      _ = st := ih st hpar hmem

/-- Claim C4: from a fresh composite, any sequence of `startWatchDir`
calls leaves the pool duplicate-free, with entries only for directories
whose immediate parent is the watched root; registering the same
top-level directory `n ≥ 1` times is the same as registering it once —
pool of size one, a single watcher construction, a single monitor thread
— and registering the root itself or a directory deeper than one level
adds no pool entry (indeed changes nothing). -/
theorem c4_pool_at_most_one_entry_per_path
    (rootPath : String) (dirs : List Dir) (d : Dir) (n : Nat)
    (hd : d.parentPath = some rootPath) (hn : 1 ≤ n) :
    (startWatchDirs WatcherState.init rootPath dirs).fseventWatchers.Nodup
    ∧ (∀ q ∈ (startWatchDirs WatcherState.init rootPath dirs).fseventWatchers,
        ∃ e, e ∈ dirs ∧ e.fullPath = q ∧ e.parentPath = some rootPath)
    ∧ startWatchDirs WatcherState.init rootPath (List.replicate n d)
        = startWatchDir WatcherState.init rootPath d
    ∧ (startWatchDir WatcherState.init rootPath d).fseventWatchers = [d.fullPath]
    ∧ (startWatchDir WatcherState.init rootPath d).constructedWatchers = [d.fullPath]
    ∧ (startWatchDir WatcherState.init rootPath d).startedThreads = 1
    ∧ (∀ (st : WatcherState) (e : Dir), e.parentPath = Option.none →
        startWatchDir st rootPath e = st)
    ∧ (∀ (st : WatcherState) (e : Dir) (q : String), e.parentPath = some q →
        q ≠ rootPath → startWatchDir st rootPath e = st) := by
  obtain ⟨m, rfl⟩ : ∃ m, n = m + 1 := ⟨n - 1, (Nat.succ_pred_eq_of_pos hn).symm⟩
  have hsingle : (startWatchDir WatcherState.init rootPath d).fseventWatchers
      = [d.fullPath] := by
    simp [startWatchDir, hd, WatcherState.init]
  refine ⟨?_, ?_, ?_, hsingle, ?_, ?_, ?_, ?_⟩
  · exact startWatchDirs_nodup rootPath dirs WatcherState.init List.nodup_nil
  · intro q hq
    rcases startWatchDirs_pool_from rootPath dirs WatcherState.init q hq with h | h
    · cases h
    · exact h
  · calc startWatchDirs WatcherState.init rootPath (List.replicate (m + 1) d)
        = startWatchDirs (startWatchDir WatcherState.init rootPath d) rootPath
            (List.replicate m d) := by
          simp [startWatchDirs, List.replicate_succ]
      _ = startWatchDir WatcherState.init rootPath d :=
          startWatchDirs_replicate_id rootPath d m _ hd
            (by rw [hsingle]; exact List.mem_singleton_self _)
  · simp [startWatchDir, hd, WatcherState.init]
  · simp [startWatchDir, hd, WatcherState.init]
  · intro st e he; simp [startWatchDir, he]
  · intro st e q he hq; simp [startWatchDir, he, hq]

/-- Witness for C4 at a concrete root "R", registering "R/a" twice, the
root itself, and a depth-two directory. -/
theorem c4_pool_at_most_one_entry_per_path_witness :
    (startWatchDirs WatcherState.init "R"
        [{ fullPath := "R/a", parentPath := some "R" },
         { fullPath := "R/a", parentPath := some "R" },
         { fullPath := "R", parentPath := Option.none }]).fseventWatchers.Nodup
    ∧ (∀ q ∈ (startWatchDirs WatcherState.init "R"
        [{ fullPath := "R/a", parentPath := some "R" },
         { fullPath := "R/a", parentPath := some "R" },
         { fullPath := "R", parentPath := Option.none }]).fseventWatchers,
        ∃ e, e ∈ [({ fullPath := "R/a", parentPath := some "R" } : Dir),
         { fullPath := "R/a", parentPath := some "R" },
         { fullPath := "R", parentPath := Option.none }]
          ∧ e.fullPath = q ∧ e.parentPath = some "R")
    ∧ startWatchDirs WatcherState.init "R"
        (List.replicate 2 ({ fullPath := "R/a", parentPath := some "R" } : Dir))
        = startWatchDir WatcherState.init "R"
            { fullPath := "R/a", parentPath := some "R" }
    ∧ (startWatchDir WatcherState.init "R"
        ({ fullPath := "R/a", parentPath := some "R" } : Dir)).fseventWatchers = ["R/a"]
    ∧ (startWatchDir WatcherState.init "R"
        ({ fullPath := "R/a", parentPath := some "R" } : Dir)).constructedWatchers = ["R/a"]
    ∧ (startWatchDir WatcherState.init "R"
        ({ fullPath := "R/a", parentPath := some "R" } : Dir)).startedThreads = 1
    ∧ (∀ (st : WatcherState) (e : Dir), e.parentPath = Option.none →
        startWatchDir st "R" e = st)
    ∧ (∀ (st : WatcherState) (e : Dir) (q : String), e.parentPath = some q →
        q ≠ "R" → startWatchDir st "R" e = st) :=
  c4_pool_at_most_one_entry_per_path "R"
    [{ fullPath := "R/a", parentPath := some "R" },
     { fullPath := "R/a", parentPath := some "R" },
     { fullPath := "R", parentPath := Option.none }]
    { fullPath := "R/a", parentPath := some "R" } 2 rfl (by decide)

/-- Counterexample to claim C6 as stated: inject a recrawl into a fresh
composite (this marks the gate pending), then drain everything; with no
new notification, `waitNotify` still returns true — nothing in the module
ever clears `hasPending`, and in particular draining does not. -/
theorem c6_counterexample :
    waitNotify
      (consumeNotify (injectRecrawl WatcherState.init "R/b")
        (fun _ => quiescent) quiescent 0).state 100 = true := rfl

/-- Claim C6 (amended): `waitNotify` returns false immediately when stop
has been requested, and otherwise returns the current value of the
pending flag; it never clears the flag, and neither does a drain —
`consumeNotify` leaves the gate untouched, so `waitNotify` answers the
same before and after a drain (the flag stays set until stop). -/
theorem c6_amended_waitNotify_never_cleared
    (st : WatcherState) (env : String → LeafBehavior) (kq : LeafBehavior)
    (now t : Nat) :
    waitNotify (consumeNotify st env kq now).state t = waitNotify st t
    ∧ (st.cond.shouldStop = true → waitNotify st t = false)
    ∧ (st.cond.shouldStop = false → waitNotify st t = st.cond.hasPending) := by
  refine ⟨rfl, ?_, ?_⟩
  · intro h; simp [waitNotify, PendingEventsCond.wait, h]
  · intro h; simp [waitNotify, PendingEventsCond.wait, h]

/-- A composite whose gate has stop requested. -/
def stStopRequested : WatcherState :=
  { WatcherState.init with cond := { shouldStop := true, hasPending := false } }

/-- A composite whose gate has the pending flag set. -/
def stPendingSet : WatcherState :=
  { WatcherState.init with cond := { shouldStop := false, hasPending := true } }

/-- Witness for amended C6 at concrete states: a pending gate answers
the same after a drain, a stopped gate answers false, a pending gate
answers true. -/
theorem c6_amended_waitNotify_never_cleared_witness :
    waitNotify (consumeNotify stPendingSet (fun _ => quiescent) quiescent 0).state 100
        = waitNotify stPendingSet 100
    ∧ waitNotify stStopRequested 3 = false
    ∧ waitNotify stPendingSet 3 = true :=
  ⟨(c6_amended_waitNotify_never_cleared stPendingSet (fun _ => quiescent) quiescent 0 100).1,
   (c6_amended_waitNotify_never_cleared stStopRequested (fun _ => quiescent) quiescent 0 3).2.1 rfl,
   (c6_amended_waitNotify_never_cleared stPendingSet (fun _ => quiescent) quiescent 0 3).2.2 rfl⟩

namespace Watchman

/-- The JSON values the inject-recrawl command inspects. -/
inductive Json where
  | str (s : String)
  | num (n : Int)
deriving DecidableEq, Repr

/-- `json_string_value`: the string payload, or null for a non-string. -/
def json_string_value : Json → Option String
  | Json.str s => some s
  | Json.num _ => none

/-- Responses the command handler can send to the client. -/
inductive CmdResponse where
  | errorResponse (msg : String)
  | okResponse
deriving DecidableEq, Repr

/-- What one invocation of the command handler did: the responses sent,
and the arguments of the `injectRecrawl` calls it made (in order);
`Option.none` stands for the null `const char*` that `json_string_value`
returned for a non-string argument. -/
structure CmdOutcome where
  responses : List CmdResponse
  injectedArgs : List (Option String)
deriving DecidableEq, Repr

/-- `cmd_debug_kqueue_and_fsevents_recrawl` (`kqueue_and_fsevents.cpp:283-316`):
reject a wrong argument count; reject a root whose watcher is not the
composite (`isComposite = false` models the failed downcast in
`watcherFromRoot`); then read argument 2 as a string.  When the argument
is not a string the source sends the error response but — there is no
`return` after it — still falls through, calls
`watcher->injectRecrawl(path)` with the null path, and sends the success
response. -/
def cmd_debug_kqueue_and_fsevents_recrawl
    (args : List Json) (isComposite : Bool) : CmdOutcome :=
  if args.length ≠ 3 then
    { responses :=
        [CmdResponse.errorResponse
          "wrong number of arguments for debug-kqueue-and-fsevents-recrawl"],
      injectedArgs := [] }
  else if isComposite = false then
    { responses :=
        [CmdResponse.errorResponse "root is not using the kqueue+fsevents watcher"],
      injectedArgs := [] }
  else
    match json_string_value (args.getD 2 (Json.num 0)) with
    | none =>
      { responses :=
          [CmdResponse.errorResponse
            "invalid value for argument 2, expected a string naming the path to trigger a recrawl on",
           CmdResponse.okResponse],
        injectedArgs := [Option.none] }
    | some path =>
      { responses := [CmdResponse.okResponse],
        injectedArgs := [some path] }

end Watchman

/-- Claim C5 evaluated at its failing input (code bug): with the watch
running the composite engine and a non-string path argument, the handler
sends the error response and then still calls `injectRecrawl` — with the
null path — and sends a success response; state is mutated, contradicting
the no-state-mutation claim.  By contrast, the not-this-engine branch
does return early: error response only, no `injectRecrawl` call. -/
theorem c5_invalid_path_still_injects :
    cmd_debug_kqueue_and_fsevents_recrawl
        [Json.str "debug-kqueue-and-fsevents-recrawl", Json.str "/watched/root",
         Json.num 42] true
      = { responses :=
            [CmdResponse.errorResponse
              "invalid value for argument 2, expected a string naming the path to trigger a recrawl on",
             CmdResponse.okResponse],
          injectedArgs := [Option.none] }
    ∧ cmd_debug_kqueue_and_fsevents_recrawl
        [Json.str "debug-kqueue-and-fsevents-recrawl", Json.str "/watched/root",
         Json.str "/watched/root/b"] false
      = { responses :=
            [CmdResponse.errorResponse "root is not using the kqueue+fsevents watcher"],
          injectedArgs := [] } :=
  ⟨rfl, rfl⟩

/-- Pool behaviour for the C9 scenario: the watcher at "R/a"
self-cancels; every other watcher reports one event and pending. -/
def env9 : String → LeafBehavior := fun p =>
  if p = "R/a" then { events := [], addedPending := false, cancelSelf := true }
  else
    { events := [{ path := "R/b/x", time := 7,
                   flags := { via_notify := true, is_recursive := false,
                              is_desynced := false } }],
      addedPending := true, cancelSelf := false }

/-- Claim C9 evaluated at its failing input, in the list-based embedding
(which is the well-defined intended semantics of the loop): with pool
["R/a", "R/b"] and the watcher at "R/a" self-cancelling, the later entry
"R/b" is still visited exactly once (its event reaches the sink and its
`addedPending` is accumulated), and only "R/a" is erased.  The C++ source
itself, however, erases the current element of the `unordered_map` inside
the range-for and then increments the invalidated iterator, which the
language leaves undefined — the claim is what the code intends but not
what it guarantees. -/
theorem c9_erase_during_iteration_model_eval :
    (consumeNotify { WatcherState.init with fseventWatchers := ["R/a", "R/b"] }
        env9 quiescent 0).state.fseventWatchers = ["R/b"]
    ∧ (consumeNotify { WatcherState.init with fseventWatchers := ["R/a", "R/b"] }
        env9 quiescent 0).sink
      = [{ path := "R/b/x", time := 7,
           flags := { via_notify := true, is_recursive := false,
                      is_desynced := false } }]
    ∧ (consumeNotify { WatcherState.init with fseventWatchers := ["R/a", "R/b"] }
        env9 quiescent 0).state.cookieRemovals = ["R/a"]
    ∧ (consumeNotify { WatcherState.init with fseventWatchers := ["R/a", "R/b"] }
        env9 quiescent 0).ret
      = { addedPending := true, cancelSelf := false } := by
  refine ⟨?_, ?_, ?_, ?_⟩ <;> decide
